import Mathlib

/-!
Verification of the lomnov_mini_app smart-meter capture mini-app.

Shallow embedding of the code, in two parts:
  * the continuous frame-change evaluator of the auto-scan loop
    (`startScanning`/`scanLoop`, src/unnamed/part_005);
  * the multi-step capture workflow (app.js variant with
    `checkExistingData`/`setupCaptureHandler`) together with the
    storage and API service layer (api-service.js,
    `MeterStorageService` and `ApiService`), and the upload URL
    resolution of `UploadService.upload` (src/unnamed/part_000).

JavaScript numbers are modelled as exact rationals; the single place
where float semantics are load-bearing (the 0/0 = NaN produced by the
change normalization on an empty pixel buffer) is modelled explicitly
with `Option`, `none` standing for NaN.
-/

set_option maxRecDepth 100000

namespace LomnovApp

/-! ### Continuous frame-change evaluation (src/unnamed/part_005, scanLoop)

A frame is its `imageData.data` RGBA byte array, modelled as a list of
naturals.  The loop samples every `sampleRate * 4 = 80`-th byte
(`for (let i = 0; i < imageData.data.length; i += sampleRate * 4)`),
i.e. the red channel of every 20th pixel. -/

/-- Indices sampled by the scan loop: every 80th byte below `len`. -/
def sampleIdx (len : ℕ) : List ℕ :=
  (List.range len).filter (fun i => i % 80 == 0)

/-- `diff` accumulated by the loop:
`diff += Math.abs(imageData.data[i] - lastFrameData.data[i])`. -/
def sampledDiff (cur prev : List ℕ) : ℕ :=
  ((sampleIdx cur.length).map
    (fun i => ((cur.getD i 0 : ℤ) - (prev.getD i 0 : ℤ)).natAbs)).sum

/-- `const CHANGE_THRESHOLD = 0.12; // Sensitivity for frame changes` -/
def CHANGE_THRESHOLD : ℚ := 12 / 100

/-- `changePercent = (diff / (imageData.data.length / (sampleRate * 4))) / 255`.
On an empty pixel buffer the loop body never runs, so this is
`0 / (0 / 80) = 0 / 0 = NaN` in JavaScript; NaN is modelled as `none`. -/
def changePercent (cur prev : List ℕ) : Option ℚ :=
  if cur.length = 0 then none
  else some (((sampledDiff cur prev : ℚ) / ((cur.length : ℚ) / 80)) / 255)

/-- Verdict of one iteration of the scan loop on an evaluated frame. -/
inductive ScanDecision where
  | accepted
  | rejected
deriving DecidableEq

/-- One change-detection step of `scanLoop`: given the retained
`lastFrameData` and the freshly captured frame, decide whether to skip
the API call (`if (changePercent < CHANGE_THRESHOLD) { ... return; }`)
and, on acceptance, retain the new frame (`lastFrameData = imageData`).
`NaN < CHANGE_THRESHOLD` is false in JavaScript, so the `none` score
falls through to acceptance. -/
def scanStep (last : Option (List ℕ)) (cur : List ℕ) :
    ScanDecision × Option (List ℕ) :=
  match last with
  | none => (.accepted, some cur)
  | some prev =>
    match changePercent cur prev with
    | some c =>
      if c < CHANGE_THRESHOLD then (.rejected, some prev)
      else (.accepted, some cur)
    | none => (.accepted, some cur)

/-- The accept/reject verdict of continuous evaluation for one frame. -/
def evaluateContinuous (cur : List ℕ) (last : Option (List ℕ)) : ScanDecision :=
  (scanStep last cur).1

/-- Decisions of the scan loop over a sequence of evaluated frames,
threading the retained comparison frame. -/
def runScan (last : Option (List ℕ)) : List (List ℕ) → List ScanDecision
  | [] => []
  | f :: fs =>
    let s := scanStep last f
    s.1 :: runScan s.2 fs

/-- Number of sampled pixels whose intensity delta exceeds the noise
floor `noise`. -/
def changedCount (noise : ℕ) (cur prev : List ℕ) : ℕ :=
  ((sampleIdx cur.length).filter
    (fun i => noise < ((cur.getD i 0 : ℤ) - (prev.getD i 0 : ℤ)).natAbs)).length

/-- Modelled from the spec's words, for comparison with the code's
score: the fraction of sampled pixels whose intensity delta exceeds
the noise floor `noise`. -/
def specChangedFraction (noise : ℕ) (cur prev : List ℕ) : ℚ :=
  (changedCount noise cur prev : ℚ) / ((sampleIdx cur.length).length : ℚ)

/-- Concrete frame: 400 bytes, first byte 153, rest 0. -/
def frameA : List ℕ := 153 :: List.replicate 399 0

/-- Concrete frame: 400 zero bytes. -/
def frameB : List ℕ := List.replicate 400 0

/-- Concrete frame: 160 bytes, all 20. -/
def frameC : List ℕ := List.replicate 160 20

/-- Concrete frame: 160 zero bytes. -/
def frameD : List ℕ := List.replicate 160 0

/-! ### JavaScript truthiness helpers

`a || b` on strings treats the empty string as falsy; on nullable
values, `null`/`undefined` are falsy. -/

/-- `s || d` for a string `s`. -/
def jsOrS (s d : String) : String :=
  if s = "" then d else s

/-- `o || d` for a possibly-absent string `o`. -/
def jsOrOpt (o : Option String) (d : String) : String :=
  match o with
  | none => d
  | some s => if s = "" then d else s

/-- `a || b` where both sides are possibly-absent strings. -/
def jsOrO (a b : Option String) : Option String :=
  match a with
  | none => b
  | some s => if s = "" then b else some s

/-- Truthiness of a nullable string (`null`, `undefined` and `""` are
falsy). -/
def truthyS : Option String → Bool
  | none => false
  | some s => !(s == "")

/-! ### Storage layer (api-service.js, `MeterStorageService`)

`localStorage` holds up to three keys: `meter_chat_id`,
`meter_water_data` and `meter_electricity_data`. -/

/-- One persisted step result (the JSON stored under a meter-data
key): reading string, accuracy string, image URL and `Date.now()`
timestamp. -/
structure StepData where
  meter : String
  accuracy : String
  imageUrl : String
  timestamp : ℕ
deriving DecidableEq

/-- The persisted storage contents. -/
structure Storage where
  chatId : Option String
  water : Option StepData
  electricity : Option StepData
deriving DecidableEq

/-- `MeterStorageService.clearAll()`: removes all three keys. -/
def clearAll : Storage :=
  { chatId := none, water := none, electricity := none }

/-- `MeterStorageService.saveChatId(chatId)`. -/
def saveChatId (cid : String) (st : Storage) : Storage :=
  { st with chatId := some cid }

/-- `MeterStorageService.isComplete()`:
`getWaterData() && getElectricityData() && getChatId()`, used for its
truthiness (an empty chat-id string is falsy). -/
def isComplete (st : Storage) : Bool :=
  st.water.isSome && st.electricity.isSome && truthyS st.chatId

/-! ### OCR response normalization (api-service.js,
`ApiService.formatOCRResponse`) -/

/-- One detection of the OCR backend, with the fields the workflow
reads (`text` and `confidence`; the UI-only `label` and `box` fields
are omitted). -/
structure Detection where
  text : String
  confidence : ℚ
deriving DecidableEq

/-- The parsed OCR response body: either a bare JSON array, or an
object with optional `detections` array, optional `data` array and
optional `success` flag (`none` models an absent or falsy field). -/
inductive ApiResult where
  | arr (ds : List Detection)
  | obj (detections : Option (List Detection)) (dataArr : Option (List Detection))
        (success : Option Bool)
deriving DecidableEq

/-- Normalized OCR response. -/
structure OcrFormatted where
  success : Bool
  detections : List Detection
deriving DecidableEq

/-- `ApiService.formatOCRResponse(apiResult)`: tries
`apiResult.detections`, then `Array.isArray(apiResult)`, then
`apiResult.data`; `success` is
`detections.length > 0 || apiResult.success === true` (a bare array
has no `success` property). -/
def formatOCRResponse (r : ApiResult) : OcrFormatted :=
  match r with
  | .arr ds => { success := !ds.isEmpty, detections := ds }
  | .obj dets dataArr succ =>
    let detections :=
      match dets with
      | some ds => ds
      | none =>
        match dataArr with
        | some ds => ds
        | none => []
    { success := !detections.isEmpty || succ == some true, detections := detections }

/-- Print a number of hundredths with two decimal places. -/
def toFixed2Nat (n : ℕ) : String :=
  toString (n / 100) ++ "." ++
    (if n % 100 < 10 then "0" ++ toString (n % 100) else toString (n % 100))

/-- JavaScript `Number.prototype.toFixed(2)` for the nonnegative
confidences occurring here: round half up to hundredths and print with
two decimals. -/
def toFixed2 (q : ℚ) : String :=
  toFixed2Nat (⌊q * 100 + 1 / 2⌋).toNat

/-! ### Single-meter processing (api-service.js,
`ApiService.processSingleMeter`)

The OCR call and the image upload are the two network effects; their
outcomes are inputs of the embedding (`Except.error` models a thrown
`DetectionFailure`/`UploadFailure`). -/

/-- Which meter a step processes. -/
inductive MeterType where
  | water
  | electricity
deriving DecidableEq

/-- The `meterData` object built by `processSingleMeter` (fields of the
untaken branch are absent). -/
structure MeterData where
  chatId : String
  waterMeter : Option String
  waterAccuracy : Option String
  waterImage : Option String
  electricityMeter : Option String
  electricityAccuracy : Option String
  electricityImage : Option String
deriving DecidableEq

/-- The object returned by a successful `processSingleMeter` call. -/
structure SingleMeterResult where
  meterValue : String
  accuracy : String
  imageUrl : String
  meterData : MeterData
deriving DecidableEq

/-- `ApiService.processSingleMeter(imageBase64, chatId, meterType)`:
OCR first (`sendDetectionRequest`), extracting
`detections[0].text || '0.00'` and `detections[0].confidence || 0`
only when `ocrResult.success && ocrResult.detections?.length > 0`;
then the image upload; a failure of either aborts the step. -/
def processSingleMeter (ocr : Except Unit ApiResult) (upload : Except Unit String)
    (chatId : String) (meterType : MeterType) : Except Unit SingleMeterResult :=
  match ocr with
  | .error e => .error e
  | .ok raw =>
    let ocrResult := formatOCRResponse raw
    let extracted : String × ℚ :=
      match ocrResult.detections, ocrResult.success with
      | d :: _, true => (jsOrS d.text "0.00", d.confidence)
      | _, _ => ("0.00", 0)
    match upload with
    | .error e => .error e
    | .ok imageUrl =>
      let meterData : MeterData :=
        match meterType with
        | .water =>
          { chatId := chatId
            waterMeter := some extracted.1
            waterAccuracy := some (toFixed2 extracted.2)
            waterImage := some imageUrl
            electricityMeter := none
            electricityAccuracy := none
            electricityImage := none }
        | .electricity =>
          { chatId := chatId
            waterMeter := none
            waterAccuracy := none
            waterImage := none
            electricityMeter := some extracted.1
            electricityAccuracy := some (toFixed2 extracted.2)
            electricityImage := some imageUrl }
      .ok { meterValue := extracted.1
            accuracy := toFixed2 extracted.2
            imageUrl := imageUrl
            meterData := meterData }

/-- `MeterStorageService.saveWaterData(meterData, imageUrl)` (the
`timestamp` is `Date.now()`, passed in as `now`). -/
def saveWaterData (md : MeterData) (imageUrl : String) (now : ℕ) (st : Storage) :
    Storage :=
  { st with
    water := some
      { meter := jsOrOpt md.waterMeter "0.00"
        accuracy := jsOrOpt md.waterAccuracy "0.00"
        imageUrl := jsOrS imageUrl (jsOrOpt md.waterImage "")
        timestamp := now } }

/-- `MeterStorageService.saveElectricityData(meterData, imageUrl)`. -/
def saveElectricityData (md : MeterData) (imageUrl : String) (now : ℕ) (st : Storage) :
    Storage :=
  { st with
    electricity := some
      { meter := jsOrOpt md.electricityMeter "0.00"
        accuracy := jsOrOpt md.electricityAccuracy "0.00"
        imageUrl := jsOrS imageUrl (jsOrOpt md.electricityImage "")
        timestamp := now } }

/-! ### Progress, payload and submission (api-service.js) -/

/-- The object returned by `ApiService.getProgressStatus()`. -/
structure ProgressStatus where
  chatId : Option String
  waterCompleted : Bool
  electricityCompleted : Bool
  isComplete : Bool
deriving DecidableEq

/-- `ApiService.getProgressStatus()`. -/
def getProgressStatus (st : Storage) : ProgressStatus :=
  { chatId := st.chatId
    waterCompleted := st.water.isSome
    electricityCompleted := st.electricity.isSome
    isComplete := isComplete st }

/-- `checkExistingData()` in app.js: the `currentStep` chosen at
startup from the persisted storage (`0` also when `checkExistingData`
returns false and `startApp` calls `updateUIForStep(0)`). -/
def checkExistingData (st : Storage) : ℕ :=
  let status := getProgressStatus st
  if status.waterCompleted && !status.electricityCompleted then 1
  else if status.isComplete then 2
  else 0

/-- The inner `result` object of the aggregate payload. -/
structure Payload where
  chat_id : String
  water_meter : String
  water_accuracy : String
  electricity_meter : String
  electricity_accuracy : String
  water_image : String
  electricity_image : String
deriving DecidableEq

/-- Errors thrown by the submission path. -/
inductive SubmitError where
  | noChatId
  | noData
  | notifyFailed
deriving DecidableEq

/-- `ApiService.buildFinalPayloadFromStorage()`: throws when the chat
id is missing (falsy), throws when neither meter's data is present,
otherwise builds the payload with `waterData?.meter || "0.00"`-style
fallbacks. -/
def buildFinalPayloadFromStorage (st : Storage) : Except SubmitError Payload :=
  match st.chatId with
  | none => .error .noChatId
  | some cid =>
    if cid = "" then .error .noChatId
    else if st.water.isNone && st.electricity.isNone then .error .noData
    else .ok
      { chat_id := cid
        water_meter := jsOrOpt (st.water.map StepData.meter) "0.00"
        water_accuracy := jsOrOpt (st.water.map StepData.accuracy) "0.00"
        electricity_meter := jsOrOpt (st.electricity.map StepData.meter) "0.00"
        electricity_accuracy := jsOrOpt (st.electricity.map StepData.accuracy) "0.00"
        water_image := jsOrOpt (st.water.map StepData.imageUrl) ""
        electricity_image := jsOrOpt (st.electricity.map StepData.imageUrl) "" }

/-- `ApiService.submitFromStorage()`: build the payload, send the
notification, and clear the storage only after a successful send.  The
returned storage is the post-call storage (unchanged on every failure
path, since `clearAll` runs after `sendNotification` resolves). -/
def submitFromStorage (st : Storage) (notify : Except Unit Unit) :
    Except SubmitError Payload × Storage :=
  match buildFinalPayloadFromStorage st with
  | .error e => (.error e, st)
  | .ok p =>
    match notify with
    | .error _ => (.error .notifyFailed, st)
    | .ok _ => (.ok p, clearAll)

/-- `ApiService.resetStorage()`. -/
def resetStorage (_ : Storage) : Storage :=
  clearAll

/-! ### The capture click handler (app.js, `setupCaptureHandler`) -/

/-- App-level mutable state read and written by the click handler. -/
structure AppState where
  isProcessing : Bool
  currentStep : ℕ
  chatId : String
  storage : Storage
deriving DecidableEq

/-- View of an `Except` value as a sum, for deciding equality. -/
def exceptToSum {ε α : Type} : Except ε α → ε ⊕ α
  | .error e => .inl e
  | .ok a => .inr a

instance {ε α : Type} [DecidableEq ε] [DecidableEq α] : DecidableEq (Except ε α) :=
  fun a b =>
    decidable_of_iff (exceptToSum a = exceptToSum b)
      (by cases a <;> cases b <;> simp [exceptToSum])

/-- Environment of one click: camera state, the outcomes of the
network calls the handler may perform, and the clock. -/
structure Env where
  cameraPlaying : Bool
  videoReady : Bool
  ocr : Except Unit ApiResult
  upload : Except Unit String
  notify : Except Unit Unit
  now : ℕ
deriving DecidableEq

/-- Outcome classification of one click. -/
inductive ClickResult where
  | noop
  | success
  | errored
deriving DecidableEq

/-- Body of the click handler after the `isProcessing` guard has
passed and the flag has been set: capture (`Video not ready` throws),
then `processWaterMeter` / `processElectricityMeter` /
`submitBothReadings` by `currentStep`; the `finally` clause resets
`isProcessing` on every exit path.  In the water step
`processAndSaveWaterMeter` saves the chat id before processing; in the
electricity step `processAndSaveElectricityMeter` throws when the
stored chat id is missing.  (The extra `handleDetectionResult` OCR
call made for UI feedback after a successful step swallows its own
errors and touches no workflow state, so it is not modelled.) -/
def captureRun (s : AppState) (env : Env) : AppState × ClickResult :=
  if !env.videoReady then ({ s with isProcessing := false }, .errored)
  else
    match s.currentStep with
    | 0 =>
      let st1 := saveChatId s.chatId s.storage
      match processSingleMeter env.ocr env.upload s.chatId .water with
      | .error _ => ({ s with storage := st1, isProcessing := false }, .errored)
      | .ok r =>
        let st2 := saveWaterData r.meterData r.imageUrl env.now st1
        ({ s with storage := st2, currentStep := 1, isProcessing := false }, .success)
    | 1 =>
      match s.storage.chatId with
      | none => ({ s with isProcessing := false }, .errored)
      | some cid =>
        if cid = "" then ({ s with isProcessing := false }, .errored)
        else
          match processSingleMeter env.ocr env.upload cid .electricity with
          | .error _ => ({ s with isProcessing := false }, .errored)
          | .ok r =>
            let st2 := saveElectricityData r.meterData r.imageUrl env.now s.storage
            ({ s with storage := st2, currentStep := 2, isProcessing := false }, .success)
    | 2 =>
      match submitFromStorage s.storage env.notify with
      | (.error _, st2) => ({ s with storage := st2, isProcessing := false }, .errored)
      | (.ok _, st2) => ({ s with storage := st2, isProcessing := false }, .success)
    | _ + 3 => ({ s with isProcessing := false }, .success)

/-- `captureBtn.onclick`: the guard
`if (isProcessing || !camera.isPlaying()) return;` followed by the
handler body. -/
def captureClick (s : AppState) (env : Env) : AppState × ClickResult :=
  if s.isProcessing || !env.cameraPlaying then (s, .noop)
  else captureRun { s with isProcessing := true } env

/-! ### Event-trace model of the in-flight guard

The handler suspends at its network awaits, so a later click can
arrive while an operation is in flight.  A trace interleaves click
events with the completion of the pending operation; `starts` counts
operations actually begun (network requests issued for a step) and
`completes` counts operations finished. -/

/-- An event seen by the single-threaded event loop. -/
inductive AppEvent where
  | click (env : Env)
  | complete

/-- Trace state: app state, the pending in-flight operation (with its
environment), and operation counters. -/
structure TraceState where
  app : AppState
  pending : Option Env
  starts : ℕ
  completes : ℕ

/-- One event step.  A click while `isProcessing` (or with the camera
stopped) is the guard's early return: no state change, no operation
started.  Otherwise the flag is set and the operation begins; its
remaining body runs at the matching `complete` event. -/
def traceStep (t : TraceState) (e : AppEvent) : TraceState :=
  match e with
  | .click env =>
    if t.app.isProcessing || !env.cameraPlaying then t
    else
      { t with
        app := { t.app with isProcessing := true }
        pending := some env
        starts := t.starts + 1 }
  | .complete =>
    match t.pending with
    | some env =>
      { t with
        app := (captureRun t.app env).1
        pending := none
        completes := t.completes + 1 }
    | none => t

/-- Run a list of events. -/
def runEvents (t : TraceState) : List AppEvent → TraceState
  | [] => t
  | e :: es => runEvents (traceStep t e) es

/-- Trace state at app start. -/
def initTrace (s : AppState) : TraceState :=
  { app := s, pending := none, starts := 0, completes := 0 }

/-! ### Upload URL resolution -/

/-- The nested `data` object of an upload response. -/
structure UploadRespData where
  url : Option String
deriving DecidableEq

/-- Parsed JSON body of an upload response (`none` models an absent or
falsy field). -/
structure UploadResp where
  url : Option String
  link : Option String
  secure_url : Option String
  path : Option String
  data : Option UploadRespData
deriving DecidableEq

/-- `UploadService.upload(blob)` (src/unnamed/part_000): throws on a
non-ok response, else resolves
`data.url || data.link || data.secure_url` and throws when that chain
is falsy. -/
def uploadResolve (respOk : Bool) (body : UploadResp) : Except Unit String :=
  if !respOk then .error ()
  else
    match jsOrO body.url (jsOrO body.link body.secure_url) with
    | some u => if u = "" then .error () else .ok u
    | none => .error ()

/-- Parsed JSON body as read by `ApiService.uploadImageToStorage`. -/
structure UploadApiResult where
  success : Option Bool
  url : Option String
deriving DecidableEq

/-- URL resolution of `ApiService.uploadImageToStorage` (api-service.js):
`if (!result.success || !result.url) throw`, else `result.url`. -/
def uploadImageToStorage (respOk : Bool) (result : UploadApiResult) :
    Except Unit String :=
  if !respOk then .error ()
  else if !(result.success == some true) then .error ()
  else
    match result.url with
    | some u => if u = "" then .error () else .ok u
    | none => .error ()

/-! ### Concrete data used by counterexamples and witnesses -/

/-- A sample persisted step result. -/
def stepSample : StepData :=
  { meter := "1.00", accuracy := "0.90", imageUrl := "https://x/a.jpg", timestamp := 0 }

/-- Storage holding both step results but no chat id. -/
def storageBothNoChat : Storage :=
  { chatId := none, water := some stepSample, electricity := some stepSample }

/-- A sample app state sitting at the water step. -/
def appSample : AppState :=
  { isProcessing := false
    currentStep := 0
    chatId := "42"
    storage := clearAll }

/-- An environment whose OCR call fails. -/
def envOcrFail : Env :=
  { cameraPlaying := true
    videoReady := true
    ocr := .error ()
    upload := .ok "https://x/a.jpg"
    notify := .ok ()
    now := 7 }

/-- Invariant of the event-trace model: the counters track the pending
operation, and a pending operation holds the `isProcessing` flag. -/
def traceInv (t : TraceState) : Prop :=
  t.starts = t.completes + (if t.pending.isSome then 1 else 0) ∧
    (t.pending.isSome = true → t.app.isProcessing = true)

/-- The water step result of the spec's round-trip test. -/
def wSample : StepData :=
  { meter := "123.45", accuracy := "0.91", imageUrl := "https://x/w.jpg", timestamp := 1 }

/-- The electricity step result of the spec's round-trip test. -/
def eSample : StepData :=
  { meter := "67.89", accuracy := "0.80", imageUrl := "https://x/e.jpg", timestamp := 2 }

/-- Storage with a chat id and both step results. -/
def stFull : Storage :=
  { chatId := some "42", water := some stepSample, electricity := some stepSample }

/-- The payload built from `stFull`. -/
def payloadFull : Payload :=
  { chat_id := "42"
    water_meter := "1.00"
    water_accuracy := "0.90"
    electricity_meter := "1.00"
    electricity_accuracy := "0.90"
    water_image := "https://x/a.jpg"
    electricity_image := "https://x/a.jpg" }

/-- An upload response carrying only the `link` alias. -/
def bodyLink : UploadResp :=
  { url := none, link := some "https://y/a.jpg", secure_url := none,
    path := none, data := none }

/-- An upload response with only a `path` field and a nested
`data.url` field. -/
def bodyNested : UploadResp :=
  { url := none, link := none, secure_url := none,
    path := some "/img.jpg",
    data := some { url := some "https://y/img.jpg" } }

end LomnovApp

namespace LomnovApp

/-! ### Lemmas about the frame-change evaluator -/

theorem changePercent_of_ne (cur prev : List ℕ) (h : cur.length ≠ 0) :
    changePercent cur prev =
      some (((sampledDiff cur prev : ℚ) / ((cur.length : ℚ) / 80)) / 255) := by
  rw [changePercent, if_neg h]

theorem score_lt_iff (d l : ℕ) (hl : l ≠ 0) :
    ((d : ℚ) / ((l : ℚ) / 80)) / 255 < CHANGE_THRESHOLD ↔ 400 * d < 153 * l := by
  have hl' : (0 : ℚ) < (l : ℚ) := by exact_mod_cast Nat.pos_of_ne_zero hl
  have hrw : ((d : ℚ) / ((l : ℚ) / 80)) / 255 = (80 * d) / (255 * l) := by
    field_simp
    ring
  rw [hrw, CHANGE_THRESHOLD, div_lt_div_iff₀ (by positivity) (by norm_num)]
  constructor
  · intro h
    have h' : (400 * d : ℚ) < 153 * l := by nlinarith
    exact_mod_cast h'
  · intro h
    have h' : (400 * d : ℚ) < 153 * l := by exact_mod_cast h
    nlinarith

theorem sampledDiff_self (f : List ℕ) : sampledDiff f f = 0 := by
  apply List.sum_eq_zero
  intro x hx
  rcases List.mem_map.mp hx with ⟨i, _, hi⟩
  simp at hi
  omega

theorem changePercent_self (f : List ℕ) (hf : f ≠ []) :
    changePercent f f = some 0 := by
  have hl : f.length ≠ 0 := by
    simpa [List.length_eq_zero] using hf
  rw [changePercent_of_ne f f hl, sampledDiff_self]
  norm_num

theorem scanStep_self (f : List ℕ) (hf : f ≠ []) :
    scanStep (some f) f = (.rejected, some f) := by
  rw [scanStep, changePercent_self f hf]
  norm_num [CHANGE_THRESHOLD]

theorem runScan_replicate (f : List ℕ) (hf : f ≠ []) (n : ℕ) :
    runScan (some f) (List.replicate n f) = List.replicate n .rejected := by
  induction n with
  | zero => rfl
  | succ k ih =>
    rw [List.replicate_succ, runScan, scanStep_self f hf]
    simp [ih, List.replicate_succ]

theorem sampledDiff_frameAB : sampledDiff frameA frameB = 153 := by decide

theorem changePercent_frameAB : changePercent frameA frameB = some (3 / 25) := by
  rw [changePercent_of_ne frameA frameB (by decide), sampledDiff_frameAB]
  have hl : frameA.length = 400 := by decide
  rw [hl]
  norm_num

theorem accept_iff (cur prev : List ℕ) (h : cur.length ≠ 0) :
    evaluateContinuous cur (some prev) = .accepted ↔
      153 * cur.length ≤ 400 * sampledDiff cur prev := by
  simp only [evaluateContinuous, scanStep, changePercent_of_ne cur prev h]
  by_cases hc :
      ((sampledDiff cur prev : ℚ) / ((cur.length : ℚ) / 80)) / 255 < CHANGE_THRESHOLD
  · rw [if_pos hc]
    rw [score_lt_iff _ _ h] at hc
    simp
    omega
  · rw [if_neg hc]
    rw [score_lt_iff _ _ h] at hc
    simp
    omega

theorem frameC_rejected : evaluateContinuous frameC (some frameD) = .rejected := by
  have h := accept_iff frameC frameD (by decide)
  have hd : sampledDiff frameC frameD = 40 := by decide
  have hl : frameC.length = 160 := by decide
  rw [hd, hl] at h
  cases he : evaluateContinuous frameC (some frameD) with
  | accepted =>
    exfalso
    have := h.mp he
    omega
  | rejected => rfl

/-! ### Claim C1 -/

/-- Claim C1 is false as stated at the threshold boundary: `frameA`
against retained `frameB` has change magnitude exactly `3/25 = 0.12`,
which does not exceed the threshold, so the claim requires rejection;
the code tests `changePercent < CHANGE_THRESHOLD` and accepts.
Moreover two identical zero-length frames make the claim require
rejection of the second frame, yet the code accepts it. -/
theorem C1_counterexample :
    changePercent frameA frameB = some (3 / 25) ∧
    ¬ CHANGE_THRESHOLD < (3 / 25 : ℚ) ∧
    evaluateContinuous frameA (some frameB) = .accepted ∧
    evaluateContinuous [] (some []) = .accepted := by
  refine ⟨changePercent_frameAB, by norm_num [CHANGE_THRESHOLD], ?_, by decide⟩
  have h := accept_iff frameA frameB (by decide)
  have hd : sampledDiff frameA frameB = 153 := sampledDiff_frameAB
  have hl : frameA.length = 400 := by decide
  rw [hd, hl] at h
  exact h.mpr (by omega)

/-- Claim C1, amended: a frame with no previous retained frame is
accepted; with a previous retained frame and a well-defined change
magnitude, the frame is accepted exactly when the magnitude is at
least (not strictly above) the threshold `0.12`; an accepted frame
becomes the new retained comparison frame; and every frame after the
first in a sequence of identical nonempty frames is rejected. -/
theorem C1_continuous_gating :
    (∀ cur, evaluateContinuous cur none = .accepted) ∧
    (∀ cur prev c, changePercent cur prev = some c →
      (evaluateContinuous cur (some prev) = .accepted ↔ CHANGE_THRESHOLD ≤ c)) ∧
    (∀ cur last, evaluateContinuous cur last = .accepted →
      (scanStep last cur).2 = some cur) ∧
    (∀ (f : List ℕ) (n : ℕ), f ≠ [] →
      runScan none (f :: List.replicate n f) =
        .accepted :: List.replicate n .rejected) := by
  refine ⟨fun cur => rfl, ?_, ?_, ?_⟩
  · intro cur prev c h
    by_cases hc : c < CHANGE_THRESHOLD
    · have he : evaluateContinuous cur (some prev) = .rejected := by
        simp [evaluateContinuous, scanStep, h, hc]
      rw [he]
      exact iff_of_false (by simp) (not_le.mpr hc)
    · have he : evaluateContinuous cur (some prev) = .accepted := by
        simp [evaluateContinuous, scanStep, h, hc]
      rw [he]
      exact iff_of_true rfl (not_lt.mp hc)
  · intro cur last hacc
    match last with
    | none => rfl
    | some prev =>
      cases hcp : changePercent cur prev with
      | none => simp [scanStep, hcp]
      | some c =>
        by_cases hc : c < CHANGE_THRESHOLD
        · exfalso
          have : evaluateContinuous cur (some prev) = .rejected := by
            simp [evaluateContinuous, scanStep, hcp, hc]
          rw [this] at hacc
          exact ScanDecision.noConfusion hacc
        · simp [scanStep, hcp, hc]
  · intro f n hf
    simp only [runScan, scanStep]
    exact congrArg (ScanDecision.accepted :: ·) (runScan_replicate f hf n)

/-- Witness for C1: concrete instances of each clause. -/
theorem C1_witness :
    evaluateContinuous [7] none = .accepted ∧
    (evaluateContinuous frameA (some frameB) = .accepted ↔
      CHANGE_THRESHOLD ≤ (3 / 25 : ℚ)) ∧
    runScan none ([7] :: List.replicate 2 [7]) =
      .accepted :: List.replicate 2 .rejected :=
  ⟨C1_continuous_gating.1 [7],
   C1_continuous_gating.2.1 frameA frameB (3 / 25) changePercent_frameAB,
   C1_continuous_gating.2.2.2 [7] 2 (by decide)⟩

/-! ### Claim C2 -/

/-- Claim C2 is false as stated: against retained `frameD`, every
sampled pixel of `frameC` differs by `20`, which exceeds the small
noise floor `10`, so the changed fraction is `1 > 0.12` and the claim
requires acceptance; the code's score is the mean normalized delta
`20/255 < 0.12`, so the frame is rejected. -/
theorem C2_counterexample :
    specChangedFraction 10 frameC frameD = 1 ∧
    CHANGE_THRESHOLD < (1 : ℚ) ∧
    evaluateContinuous frameC (some frameD) = .rejected := by
  refine ⟨?_, by norm_num [CHANGE_THRESHOLD], frameC_rejected⟩
  have h1 : changedCount 10 frameC frameD = 2 := by decide
  have h2 : (sampleIdx frameC.length).length = 2 := by decide
  rw [specChangedFraction, h1, h2]
  norm_num

/-- Claim C2, amended: the change-magnitude score is the mean absolute
sampled intensity delta normalized by 255 (not a changed-pixel
fraction), and a frame with a nonempty buffer is accepted exactly when
`400 * sampledDiff ≥ 153 * length`, i.e. when that mean is at least
`0.12 * 255 = 30.6`; a pair in which every sampled pixel changed by
more than a small noise floor may still be rejected. -/
theorem C2_change_score (cur prev : List ℕ) (h : cur ≠ []) :
    evaluateContinuous cur (some prev) = .accepted ↔
      153 * cur.length ≤ 400 * sampledDiff cur prev := by
  refine accept_iff cur prev ?_
  simpa [List.length_eq_zero] using h

/-- Witness for C2: the characterization applied to `frameA`. -/
theorem C2_witness :
    evaluateContinuous frameA (some frameB) = .accepted ↔
      153 * frameA.length ≤ 400 * sampledDiff frameA frameB :=
  C2_change_score frameA frameB (by decide)

/-! ### Claim C3 -/

/-- Claim C3 is false as stated: on a zero-size pixel buffer the
normalization `diff / (length / 80)` is reached with a zero divisor
(JavaScript computes `0 / 0 = NaN`, modelled as `none`); the division
is not guarded. -/
theorem C3_counterexample : changePercent [] [] = none := by decide

/-- Claim C3, amended: evaluation of a zero-size pixel buffer still
produces a well-defined decision — the frame is accepted, because the
NaN produced by the unguarded division compares false against the
threshold — but the normalization does divide by zero there. -/
theorem C3_empty_buffer (cur prev : List ℕ) (h : cur.length = 0) :
    changePercent cur prev = none ∧
      evaluateContinuous cur (some prev) = .accepted := by
  have hc : changePercent cur prev = none := by rw [changePercent, if_pos h]
  exact ⟨hc, by simp [evaluateContinuous, scanStep, hc]⟩

/-- Witness for C3: the empty frame. -/
theorem C3_witness :
    changePercent [] ([] : List ℕ) = none ∧
      evaluateContinuous [] (some []) = .accepted :=
  C3_empty_buffer [] [] rfl

/-! ### Claim C4 -/

/-- Claim C4 is false as stated: with both step results persisted but
no chat id, the claim requires initial step 2 (`READY_TO_SUBMIT`), but
`isComplete()` also requires a truthy chat id, so `checkExistingData`
falls through to step 0. -/
theorem C4_counterexample :
    storageBothNoChat.water.isSome = true ∧
    storageBothNoChat.electricity.isSome = true ∧
    checkExistingData storageBothNoChat = 0 := by decide

/-- Claim C4, amended: no water result gives step 0; a water result
without an electricity result gives step 1; both results together with
a truthy persisted chat id give step 2; both results without a truthy
chat id fall back to step 0. -/
theorem C4_resume (st : Storage) :
    (st.water = none → checkExistingData st = 0) ∧
    (st.water.isSome = true → st.electricity = none → checkExistingData st = 1) ∧
    (st.water.isSome = true → st.electricity.isSome = true →
      truthyS st.chatId = true → checkExistingData st = 2) ∧
    (st.water.isSome = true → st.electricity.isSome = true →
      truthyS st.chatId = false → checkExistingData st = 0) := by
  obtain ⟨cid, w, e⟩ := st
  refine ⟨?_, ?_, ?_, ?_⟩ <;> intros <;>
    simp_all [checkExistingData, getProgressStatus, isComplete]

/-- Witness for C4: the four resume situations at concrete storages. -/
theorem C4_witness :
    checkExistingData clearAll = 0 ∧
    checkExistingData { chatId := some "42", water := some stepSample,
                        electricity := none } = 1 ∧
    checkExistingData stFull = 2 ∧
    checkExistingData storageBothNoChat = 0 :=
  by
  refine ⟨?_, ?_, ?_, ?_⟩
  · exact (C4_resume clearAll).1 rfl
  · exact (C4_resume { chatId := some "42", water := some stepSample, electricity := none }).2.1 rfl rfl
  · exact (C4_resume stFull).2.2.1 rfl rfl rfl
  · exact (C4_resume storageBothNoChat).2.2.2 rfl rfl rfl

/-! ### Lemmas about the click handler -/

theorem submitFromStorage_error (st : Storage) (n : Except Unit Unit)
    (e : SubmitError) (st2 : Storage)
    (h : submitFromStorage st n = (.error e, st2)) : st2 = st := by
  unfold submitFromStorage at h
  split at h
  · cases h
    rfl
  · split at h
    · cases h
      rfl
    · cases h

theorem submitFromStorage_ok (st : Storage) (n : Except Unit Unit)
    (p : Payload) (st2 : Storage)
    (h : submitFromStorage st n = (.ok p, st2)) : st2 = clearAll := by
  unfold submitFromStorage at h
  split at h
  · cases h
  · split at h
    · cases h
    · cases h
      rfl

theorem captureRun_flag (s : AppState) (env : Env) :
    ((captureRun s env).1).isProcessing = false := by
  unfold captureRun
  split
  · rfl
  · split
    · split <;> rfl
    · split
      · rfl
      · split
        · rfl
        · split <;> rfl
    · split <;> rfl
    · rfl

theorem captureRun_error_preserves (s : AppState) (env : Env)
    (h : (captureRun s env).2 = .errored) :
    (captureRun s env).1.currentStep = s.currentStep ∧
    (captureRun s env).1.storage.water = s.storage.water ∧
    (captureRun s env).1.storage.electricity = s.storage.electricity := by
  cases hv : env.videoReady with
  | false => simp [captureRun, hv]
  | true =>
    rcases hcs : s.currentStep with _ | _ | _ | n
    · cases ho : processSingleMeter env.ocr env.upload s.chatId .water with
      | error e => simp [captureRun, hv, hcs, ho, saveChatId]
      | ok r => simp [captureRun, hv, hcs, ho] at h
    · cases hcid : s.storage.chatId with
      | none => simp [captureRun, hv, hcs, hcid]
      | some cid =>
        by_cases hc : cid = ""
        · simp [captureRun, hv, hcs, hcid, hc]
        · cases ho : processSingleMeter env.ocr env.upload cid .electricity with
          | error e => simp [captureRun, hv, hcs, hcid, hc, ho]
          | ok r => simp [captureRun, hv, hcs, hcid, hc, ho] at h
    · rcases hsub : submitFromStorage s.storage env.notify with ⟨res, st2⟩
      cases res with
      | error e =>
        have hst : st2 = s.storage :=
          submitFromStorage_error s.storage env.notify e st2 hsub
        simp [captureRun, hv, hcs, hsub, hst]
      | ok p => simp [captureRun, hv, hcs, hsub] at h
    · simp [captureRun, hv, hcs] at h

/-! ### Claim C5 -/

/-- Claim C5: on every failing exit of a step's operation chain the
current step index is unchanged, both persisted step results are
unchanged, and the in-flight flag is reset on every exit path of a
started operation. -/
theorem C5_failure_preserves (s : AppState) (env : Env)
    (hs : s.isProcessing = false) :
    ((captureClick s env).1.isProcessing = false) ∧
    ((captureClick s env).2 = .errored →
      (captureClick s env).1.currentStep = s.currentStep ∧
      (captureClick s env).1.storage.water = s.storage.water ∧
      (captureClick s env).1.storage.electricity = s.storage.electricity) := by
  unfold captureClick
  split
  · exact ⟨hs, fun h => ClickResult.noConfusion h⟩
  · exact ⟨captureRun_flag _ env,
      fun h => captureRun_error_preserves { s with isProcessing := true } env h⟩

/-- Witness for C5: a failing OCR call at the water step. -/
theorem C5_witness :
    (captureClick appSample envOcrFail).1.isProcessing = false ∧
    (captureClick appSample envOcrFail).1.currentStep = appSample.currentStep ∧
    (captureClick appSample envOcrFail).1.storage.water = appSample.storage.water ∧
    (captureClick appSample envOcrFail).1.storage.electricity =
      appSample.storage.electricity := by
  have h := C5_failure_preserves appSample envOcrFail rfl
  have h2 := h.2 (by decide)
  exact ⟨h.1, h2.1, h2.2.1, h2.2.2⟩

/-! ### Lemmas about the event-trace model -/

theorem traceStep_inv (t : TraceState) (e : AppEvent) (h : traceInv t) :
    traceInv (traceStep t e) := by
  obtain ⟨h1, h2⟩ := h
  cases e with
  | click env =>
    by_cases hp : (t.app.isProcessing || !env.cameraPlaying) = true
    · simpa [traceStep, hp, traceInv] using ⟨h1, h2⟩
    · have hproc : t.app.isProcessing = false := by
        cases hb : t.app.isProcessing
        · rfl
        · exact absurd (by rw [hb]; rfl) hp
      have hpend : t.pending.isSome = false := by
        cases hq : t.pending.isSome
        · rfl
        · rw [h2 hq] at hproc
          exact Bool.noConfusion hproc
      constructor
      · simp [traceStep, hp, hpend] at h1 ⊢
        omega
      · simp [traceStep, hp]
  | complete =>
    cases hq : t.pending with
    | some env =>
      constructor
      · simp [traceStep, hq] at h1 ⊢
        omega
      · simp [traceStep, hq]
    | none =>
      have ht : traceStep t AppEvent.complete = t := by simp [traceStep, hq]
      rw [ht]
      exact ⟨h1, h2⟩

theorem runEvents_inv (evs : List AppEvent) (t : TraceState) (h : traceInv t) :
    traceInv (runEvents t evs) := by
  induction evs generalizing t with
  | nil => exact h
  | cons e es ih => exact ih (traceStep t e) (traceStep_inv t e h)

/-! ### Claim C6 -/

/-- Claim C6: a capture trigger received while an operation is in
flight is a no-op (identical state, no error, no operation started),
and along every event trace from app start the number of operations
started never exceeds the number completed by more than one — at no
point are two detection/submission operations outstanding. -/
theorem C6_inflight_guard :
    (∀ (s : AppState) (env : Env), s.isProcessing = true →
      captureClick s env = (s, .noop)) ∧
    (∀ (s : AppState) (evs : List AppEvent),
      (runEvents (initTrace s) evs).starts ≤
        (runEvents (initTrace s) evs).completes + 1) := by
  constructor
  · intro s env h
    simp [captureClick, h]
  · intro s evs
    have h := runEvents_inv evs (initTrace s) (by simp [traceInv, initTrace])
    obtain ⟨h1, _⟩ := h
    rw [h1]
    split <;> omega

/-- Witness for C6: a busy-state click and a double-click trace. -/
theorem C6_witness :
    captureClick { appSample with isProcessing := true } envOcrFail =
      ({ appSample with isProcessing := true }, .noop) ∧
    (runEvents (initTrace appSample) [.click envOcrFail, .click envOcrFail]).starts ≤
      (runEvents (initTrace appSample) [.click envOcrFail, .click envOcrFail]).completes + 1 := by
  refine ⟨?_, ?_⟩
  · exact C6_inflight_guard.1 { appSample with isProcessing := true } envOcrFail rfl
  · exact C6_inflight_guard.2 appSample [.click envOcrFail, .click envOcrFail]

/-! ### Claim C7 -/

/-- Claim C7: the aggregate payload preserves the stored nonempty
reading and accuracy strings verbatim and includes the chat id; any
step never completed — water or electricity — contributes the defaults
`0.00` for both its reading and its accuracy. -/
theorem C7_payload (cid : String) (w e : StepData) (hc : cid ≠ "")
    (hwm : w.meter ≠ "") (hwa : w.accuracy ≠ "")
    (hem : e.meter ≠ "") (hea : e.accuracy ≠ "") :
    (buildFinalPayloadFromStorage
        { chatId := some cid, water := some w, electricity := some e } =
      .ok { chat_id := cid
            water_meter := w.meter
            water_accuracy := w.accuracy
            electricity_meter := e.meter
            electricity_accuracy := e.accuracy
            water_image := jsOrS w.imageUrl ""
            electricity_image := jsOrS e.imageUrl "" }) ∧
    (buildFinalPayloadFromStorage
        { chatId := some cid, water := some w, electricity := none } =
      .ok { chat_id := cid
            water_meter := w.meter
            water_accuracy := w.accuracy
            electricity_meter := "0.00"
            electricity_accuracy := "0.00"
            water_image := jsOrS w.imageUrl ""
            electricity_image := "" }) ∧
    (buildFinalPayloadFromStorage
        { chatId := some cid, water := none, electricity := some e } =
      .ok { chat_id := cid
            water_meter := "0.00"
            water_accuracy := "0.00"
            electricity_meter := e.meter
            electricity_accuracy := e.accuracy
            water_image := ""
            electricity_image := jsOrS e.imageUrl "" }) := by
  refine ⟨?_, ?_, ?_⟩ <;>
    simp [buildFinalPayloadFromStorage, jsOrOpt, jsOrS, hc, hwm, hwa, hem, hea]

/-- Witness for C7: the spec's round-trip values `123.45`/`0.91` and
`67.89`/`0.80` under chat id `42`, plus the two single-step storages
with their `0.00` fallbacks. -/
theorem C7_witness :
    (buildFinalPayloadFromStorage
        { chatId := some "42", water := some wSample, electricity := some eSample } =
      .ok { chat_id := "42"
            water_meter := "123.45"
            water_accuracy := "0.91"
            electricity_meter := "67.89"
            electricity_accuracy := "0.80"
            water_image := "https://x/w.jpg"
            electricity_image := "https://x/e.jpg" }) ∧
    (buildFinalPayloadFromStorage
        { chatId := some "42", water := some wSample, electricity := none } =
      .ok { chat_id := "42"
            water_meter := "123.45"
            water_accuracy := "0.91"
            electricity_meter := "0.00"
            electricity_accuracy := "0.00"
            water_image := "https://x/w.jpg"
            electricity_image := "" }) ∧
    (buildFinalPayloadFromStorage
        { chatId := some "42", water := none, electricity := some eSample } =
      .ok { chat_id := "42"
            water_meter := "0.00"
            water_accuracy := "0.00"
            electricity_meter := "67.89"
            electricity_accuracy := "0.80"
            water_image := ""
            electricity_image := "https://x/e.jpg" }) := by
  have h := C7_payload "42" wSample eSample (by decide) (by decide) (by decide)
    (by decide) (by decide)
  refine ⟨?_, ?_, ?_⟩
  · simpa [wSample, eSample, jsOrS] using h.1
  · simpa [wSample, eSample, jsOrS] using h.2.1
  · simpa [wSample, eSample, jsOrS] using h.2.2

/-! ### Claim C8 -/

/-- Claim C8: the persisted session state (chat id and both step
results) is cleared exactly by a successful `submitFromStorage` or an
explicit reset; every failing submission (missing chat id, missing
data, or notification failure) leaves the persisted state unchanged. -/
theorem C8_clear_on_success (st : Storage) (n : Except Unit Unit) :
    (∀ p st2, submitFromStorage st n = (.ok p, st2) → st2 = clearAll) ∧
    (∀ e st2, submitFromStorage st n = (.error e, st2) → st2 = st) ∧
    resetStorage st = clearAll :=
  ⟨fun p st2 h => submitFromStorage_ok st n p st2 h,
   fun e st2 h => submitFromStorage_error st n e st2 h,
   rfl⟩

/-- Witness for C8: a successful and a failed submission from a full
storage. -/
theorem C8_witness :
    (submitFromStorage stFull (.ok ())).2 = clearAll ∧
    (submitFromStorage stFull (.error ())).2 = stFull ∧
    resetStorage stFull = clearAll := by
  refine ⟨?_, ?_, (C8_clear_on_success stFull (.ok ())).2.2⟩
  · exact (C8_clear_on_success stFull (.ok ())).1 payloadFull _ (by decide)
  · exact (C8_clear_on_success stFull (.error ())).2.1 .notifyFailed _ (by decide)

/-! ### Claim C9 -/

/-- Claim C9 is false as stated: a successful upload response whose
body has only a `path` field and a nested `data.url` field fails with
an error instead of resolving the URL — the resolver reads only the
top-level `url`, `link` and `secure_url` fields. -/
theorem C9_counterexample : uploadResolve true bodyNested = .error () := by decide

/-- Claim C9, amended: `UploadService.upload` resolves a successful
response through the top-level aliases `url || link || secure_url`
only, failing when the response is non-success or when that chain is
falsy; a body carrying only `path` or nested `data.url` fields always
fails; and `uploadImageToStorage` succeeds only on a response with a
true `success` flag and a truthy top-level `url`. -/
theorem C9_upload_aliases (ok : Bool) (body : UploadResp) (u : String) :
    (uploadResolve ok body = .ok u ↔
      ok = true ∧ jsOrO body.url (jsOrO body.link body.secure_url) = some u ∧ u ≠ "") ∧
    (∀ (p : Option String) (d : Option UploadRespData),
      uploadResolve ok
        { url := none, link := none, secure_url := none, path := p, data := d } =
        .error ()) ∧
    (∀ (r : UploadApiResult) (v : String),
      uploadImageToStorage ok r = .ok v ↔
        ok = true ∧ r.success = some true ∧ r.url = some v ∧ v ≠ "") := by
  refine ⟨?_, ?_, ?_⟩
  · cases ok with
    | false => simp [uploadResolve]
    | true =>
      cases hj : jsOrO body.url (jsOrO body.link body.secure_url) with
      | none => simp [uploadResolve, hj]
      | some x =>
        by_cases hx : x = ""
        · simp [uploadResolve, hj, hx]
          exact fun h => h.symm
        · simp [uploadResolve, hj, hx]
          exact fun h => h ▸ hx
  · intro p d
    cases ok <;> simp [uploadResolve, jsOrO]
  · intro r v
    cases ok with
    | false => simp [uploadImageToStorage]
    | true =>
      rcases r with ⟨succ, url⟩
      cases succ with
      | none => simp [uploadImageToStorage]
      | some b =>
        cases b with
        | false => simp [uploadImageToStorage]
        | true =>
          cases url with
          | none => simp [uploadImageToStorage]
          | some x =>
            by_cases hx : x = ""
            · simp [uploadImageToStorage, hx]
              exact fun h => h.symm
            · simp [uploadImageToStorage, hx]
              exact fun h => h ▸ hx

/-- Witness for C9: the `link` alias resolves. -/
theorem C9_witness : uploadResolve true bodyLink = .ok "https://y/a.jpg" :=
  (C9_upload_aliases true bodyLink "https://y/a.jpg").1.mpr
    ⟨rfl, by decide, by decide⟩

/-! ### toFixed2 at zero -/

theorem toFixed2_zero : toFixed2 0 = "0.00" := by
  have h : (⌊(0 : ℚ) * 100 + 1 / 2⌋) = 0 := by norm_num
  rw [toFixed2, h]
  decide

/-! ### Claim C10 -/

/-- Claim C10: an OCR response that normalizes to no detections
(success false or an empty detections list) does not fail the step:
with a successful upload, `processSingleMeter` returns a successful
result with meter value `0.00` and accuracy `0.00`. -/
theorem C10_no_detection_default (raw : ApiResult) (url cid : String)
    (mt : MeterType)
    (h : (formatOCRResponse raw).success = false ∨
      (formatOCRResponse raw).detections = []) :
    ∃ r : SingleMeterResult,
      processSingleMeter (.ok raw) (.ok url) cid mt = .ok r ∧
      r.meterValue = "0.00" ∧ r.accuracy = "0.00" ∧ r.imageUrl = url := by
  have hext : (match (formatOCRResponse raw).detections,
      (formatOCRResponse raw).success with
    | d :: _, true => (jsOrS d.text "0.00", d.confidence)
    | _, _ => (("0.00" : String), (0 : ℚ))) = ("0.00", (0 : ℚ)) := by
    rcases h with h | h
    · cases hd : (formatOCRResponse raw).detections <;> rw [h]
    · rw [h]
  simp only [processSingleMeter]
  rw [hext]
  exact ⟨_, rfl, rfl, toFixed2_zero, rfl⟩

/-- Witness for C10: an OCR response that is an empty object. -/
theorem C10_witness :
    ∃ r : SingleMeterResult,
      processSingleMeter (.ok (.obj none none none)) (.ok "https://x/a.jpg") "42"
          .water = .ok r ∧
      r.meterValue = "0.00" ∧ r.accuracy = "0.00" ∧ r.imageUrl = "https://x/a.jpg" :=
  C10_no_detection_default (.obj none none none) "https://x/a.jpg" "42" .water
    (Or.inr rfl)

end LomnovApp
